import Mathlib

/-!
Verification of the financial-leak-detector repository against its
specification.  The repository ships the React frontend (crypto utilities,
currency formatting, the dashboard leak filter) together with extensive
documentation; the pattern-aggregation / leak-classification engine itself is
described by the specification but its code is not present, so that part is
modelled from the spec (each such definition is marked `Modelled from the
spec:`).  All numbers are embedded as rationals, dates as integers (days).
-/

namespace LeakDetector

/-! ### Base64 and the password-encryption fallback (frontend crypto.ts) -/

/-- Base64 alphabet used by `btoa`. -/
def b64alphabet : List Char :=
  "ABCDEFGHIJKLMNOPQRSTUVWXYZabcdefghijklmnopqrstuvwxyz0123456789+/".data

/-- Character of the base64 alphabet at a 6-bit index. -/
def b64char (n : Nat) : Char := b64alphabet.getD n 'A'

/-- Standard base64 encoding of a byte sequence (values taken mod 256),
with `=` padding, as produced by the platform `btoa` on a binary string. -/
def b64encode : List Nat → String
  | [] => ""
  | [a] =>
    let a := a % 256
    String.mk [b64char (a / 4), b64char (a % 4 * 16), '=', '=']
  | [a, b] =>
    let a := a % 256
    let b := b % 256
    String.mk [b64char (a / 4), b64char (a % 4 * 16 + b / 16),
               b64char (b % 16 * 4), '=']
  | a :: b :: c :: rest =>
    let a := a % 256
    let b := b % 256
    let c := c % 256
    String.mk [b64char (a / 4), b64char (a % 4 * 16 + b / 16),
               b64char (b % 16 * 4 + c / 64), b64char (c % 64)]
      ++ b64encode rest

/-- The platform `btoa`: succeeds with the base64 encoding of the code
points of the string when every code point fits in one byte, and throws
(`none`) on any code point above U+00FF, per the web platform. -/
def btoa (s : String) : Option String :=
  if s.data.all (fun c => c.toNat ≤ 255) then
    some (b64encode (s.data.map Char.toNat))
  else none

/-- The `encryptPassword` function of `crypto.ts`: the `try` block performs
RSA-OAEP encryption through the external WebCrypto API, whose outcome is the
`attempt` argument (`some cipher` when encryption succeeded and the function
returns the base64 ciphertext, `none` when any step of the try block threw).
On failure the `catch` branch returns `btoa(password)`; a `none` result of
the whole function models a rejected promise. -/
def encryptPassword (attempt : Option String) (password : String) :
    Option String :=
  match attempt with
  | some cipher => some cipher
  | none => btoa password

/-! ### Currency formatting (frontend src/lib/utils.ts) -/

/-- Number-to-string rendering with `f` fixed decimal digits, following
`Number.prototype.toFixed`: the sign is taken off first, the magnitude is
rounded to the nearest multiple of `10 ^ (-f)` with ties rounded up, and the
digits are printed with the decimal point inserted (so `(-0.4).toFixed(0)`
is `"-0"`). -/
def toFixedQ (f : Nat) (x : ℚ) : String :=
  let n : ℕ := ⌊|x| * (10 : ℚ) ^ f + 1/2⌋₊
  let s : String := if x < 0 then "-" else ""
  if f = 0 then s ++ toString n
  else
    let d := toString (n % 10 ^ f)
    s ++ toString (n / 10 ^ f) ++ "." ++
      String.mk (List.replicate (f - d.length) '0') ++ d

/-- The `formatCurrency` function of `utils.ts`: zero maps to `"₹0"`, and
otherwise the value is bucketed by absolute magnitude into crores (`Cr`),
lakhs (`L`), thousands (`K`) with one decimal, or printed with zero
decimals. -/
def formatCurrency (value : ℚ) : String :=
  if value = 0 then "₹0"
  else if 10000000 ≤ |value| then "₹" ++ toFixedQ 1 (value / 10000000) ++ "Cr"
  else if 100000 ≤ |value| then "₹" ++ toFixedQ 1 (value / 100000) ++ "L"
  else if 1000 ≤ |value| then "₹" ++ toFixedQ 1 (value / 1000) ++ "K"
  else "₹" ++ toFixedQ 0 value

/-! ### The dashboard leak filter (frontend src/components/Dashboard.tsx) -/

/-- A leak row as consumed by the dashboard; only the fields the filter
reads are kept, `leak_category` being optional exactly as in the loosely
typed response object. -/
structure DashLeak where
  leak_category : Option String
  merchant_hint : String
  leak_probability : ℚ
  estimated_annual_saving : ℚ
deriving DecidableEq

/-- The category a leak is displayed under: `leak.leak_category || 'Other'`,
where both a missing and an empty-string category are falsy. -/
def effectiveCategory (c : Option String) : String :=
  match c with
  | none => "Other"
  | some s => if s = "" then "Other" else s

/-- The `selectedCategories` state is initialised to the empty list
(`useState<string[]>([])`). -/
def initialSelectedCategories : List String := []

/-- The computation of `filteredLeaks` in `Dashboard.tsx`: keep the leaks
whose effective category is a member of the selected-categories list. -/
def filteredLeaks (selectedCategories : List String)
    (leaks : List DashLeak) : List DashLeak :=
  leaks.filter (fun l => selectedCategories.contains (effectiveCategory l.leak_category))

/-! ### The engine data model

Modelled from the spec: the Transaction Pattern Aggregation & Leak
Classification Engine (Aggregator, Classifier, Report Builder) is specified
in sections 2-4 of the spec but its code is not part of the repository
sources (only the frontend that consumes its output is), so the engine is
embedded here following the spec's words.  Dates are integers counting days,
money and statistics are rationals.  Grouping uses `merchant_hint` alone,
the policy the spec recommends. -/

/-- Modelled from the spec: a cleaned, tagged transaction record as supplied
by the external Transaction Store (spec section 3). -/
structure Transaction where
  id : ℕ
  date : ℤ
  amount : ℚ
  merchant_hint : String
  level_1_tag : String
  level_2_tag : String
  level_3_tag : String
  level_3_confidence : ℚ
  narration : String
deriving DecidableEq

/-- Modelled from the spec: the aggregation order on transactions — date
ascending with ties on equal dates broken by transaction id. -/
def txLe (a b : Transaction) : Prop :=
  a.date < b.date ∨ (a.date = b.date ∧ a.id ≤ b.id)

instance : DecidableRel txLe := fun a b =>
  inferInstanceAs (Decidable (a.date < b.date ∨ (a.date = b.date ∧ a.id ≤ b.id)))

instance : IsTotal Transaction txLe :=
  ⟨fun a b => by
    rcases lt_trichotomy a.date b.date with h | h | h
    · exact Or.inl (Or.inl h)
    · rcases Nat.le_total a.id b.id with h' | h'
      · exact Or.inl (Or.inr ⟨h, h'⟩)
      · exact Or.inr (Or.inr ⟨h.symm, h'⟩)
    · exact Or.inr (Or.inl h)⟩

instance : IsTrans Transaction txLe :=
  ⟨fun a b c hab hbc => by
    rcases hab with h1 | ⟨e1, h1⟩ <;> rcases hbc with h2 | ⟨e2, h2⟩
    · exact Or.inl (h1.trans h2)
    · exact Or.inl (e2 ▸ h1)
    · exact Or.inl (e1 ▸ h2)
    · exact Or.inr ⟨e1.trans e2, h1.trans h2⟩⟩

/-- Sorting a transaction set into the canonical aggregation order. -/
def sortTxns (txns : List Transaction) : List Transaction :=
  List.insertionSort txLe txns

/-- Modelled from the spec: per-pattern statistical evidence (spec section
4.1).  Standard deviations are carried as their squares (`gap_var_days2` is
the square of `gap_std_days`, `amount_var` the square of the amount
stddev), so that all statistics stay rational; the classifier compares them
against squared thresholds, which is equivalent for the non-negative
quantities involved. -/
structure Evidence where
  txn_count : ℕ
  total_amount : ℚ
  avg_amount : ℚ
  gap_mean_days : ℚ
  gap_var_days2 : ℚ
  gap_min_days : ℚ
  gap_max_days : ℚ
  recency_days : ℚ
  span_days : ℚ
  level_3_confidence : ℚ
  amount_var : ℚ
  first_amount : ℚ
  last_amount : ℚ
deriving DecidableEq

/-- Modelled from the spec: a merchant-level behavioral pattern — the
grouping key together with its computed evidence. -/
structure Pattern where
  key : String
  evidence : Evidence
deriving DecidableEq

/-- Modelled from the spec: evidence computation for one merchant group
(spec section 4.1).  `g` is the group's transaction list already in
canonical order; magnitudes are absolute values of the signed amounts;
inter-transaction gaps are consecutive day deltas; the sample gap variance
(ddof = 1) is defined as `0` when `txn_count < 3`. -/
def mkEvidence (g : List Transaction) (asOf : ℤ) : Evidence :=
  let n := g.length
  let amts := g.map (fun t => |t.amount|)
  let total := amts.sum
  let avg := total / (n : ℚ)
  let dates := g.map (fun t => t.date)
  let gaps : List ℚ := (dates.zip dates.tail).map (fun p => ((p.2 - p.1 : ℤ) : ℚ))
  let k := gaps.length
  let gmean := gaps.sum / (k : ℚ)
  let gvar : ℚ :=
    if n < 3 then 0
    else (gaps.map (fun x => (x - gmean) ^ 2)).sum / ((k - 1 : ℕ) : ℚ)
  let gmin : ℚ := match gaps with | [] => 0 | x :: xs => xs.foldl min x
  let gmax : ℚ := match gaps with | [] => 0 | x :: xs => xs.foldl max x
  let avar : ℚ :=
    if n < 3 then 0
    else (amts.map (fun x => (x - avg) ^ 2)).sum / ((n - 1 : ℕ) : ℚ)
  let firstDate : ℤ := match dates with | [] => 0 | d :: _ => d
  let lastDate : ℤ := (dates.getLast?).getD 0
  let firstAmt : ℚ := match amts with | [] => 0 | a :: _ => a
  let lastAmt : ℚ := (amts.getLast?).getD 0
  { txn_count := n
    total_amount := total
    avg_amount := avg
    gap_mean_days := gmean
    gap_var_days2 := gvar
    gap_min_days := gmin
    gap_max_days := gmax
    recency_days := ((asOf - lastDate : ℤ) : ℚ)
    span_days := ((lastDate - firstDate : ℤ) : ℚ)
    level_3_confidence := (g.map (fun t => t.level_3_confidence)).sum / (n : ℚ)
    amount_var := avar
    first_amount := firstAmt
    last_amount := lastAmt }

/-- Modelled from the spec: `aggregate` (spec section 4.1) — sort the
transaction set into the canonical order, group by `merchant_hint` (the
spec's recommended grouping policy), and compute each group's evidence.
Group order is the order of first appearance in the sorted list, so the
result is a function of the transaction multiset alone. -/
def aggregate (txns : List Transaction) (asOf : ℤ) : List Pattern :=
  let s := sortTxns txns
  ((s.map (fun t => t.merchant_hint)).dedup).map fun k =>
    { key := k, evidence := mkEvidence (s.filter (fun t => t.merchant_hint == k)) asOf }

/-! ### The leak classifier -/

/-- Modelled from the spec: the closed leak taxonomy of spec section 4.2,
a tagged variant with exactly the four categories. -/
inductive LeakCategory where
  | subscription
  | price_creep
  | small_recurring
  | irregular_habitual
deriving DecidableEq

/-- Modelled from the spec: a classified leak (spec section 3). -/
structure Leak where
  pattern_key : String
  leak_category : LeakCategory
  leak_probability : ℚ
  estimated_annual_saving : ℚ
  reasoning : String
  actionable_step : String
deriving DecidableEq

/-- Modelled from the spec: the externally configurable thresholds of the
classification rules (spec section 4.2), with the spec's illustrative
defaults.  Relative-variance cutoffs apply to standard deviations and are
compared in squared form against the squared-stddev evidence fields. -/
structure Config where
  gapRelTol : ℚ
  gapAbsTol : ℚ
  gapRelVarMax : ℚ
  amtRelVarMax : ℚ
  creepMinRise : ℚ
  smallTicketMax : ℚ
  highFreqPer30 : ℚ
  moderateFreqPer30 : ℚ
  irregularRelVarMin : ℚ
  materiality : ℚ
  conservativeFactor : ℚ
deriving DecidableEq

/-- The spec's illustrative default thresholds: ±15% or ±3 days gap
tolerance, 0.25 relative gap variance, 0.10 relative amount variance, >10%
price rise, small-ticket ceiling 5, >8 transactions per 30 days for the
high-frequency rule, a materiality floor of 1000 and a conservative factor
of one half for the catch-all extrapolation. -/
def defaultConfig : Config :=
  { gapRelTol := 15/100
    gapAbsTol := 3
    gapRelVarMax := 1/4
    amtRelVarMax := 1/10
    creepMinRise := 1/10
    smallTicketMax := 5
    highFreqPer30 := 8
    moderateFreqPer30 := 1
    irregularRelVarMin := 1/4
    materiality := 1000
    conservativeFactor := 1/2 }

/-- Modelled from the spec: the gap mean is close to one of the canonical
intervals 7, 30 or 365 days, within a band of ±15% or ±3 days, whichever is
larger (spec rule 1). -/
def nearCanonical (cfg : Config) (g : ℚ) : Prop :=
  |g - 7| ≤ max (7 * cfg.gapRelTol) cfg.gapAbsTol ∨
  |g - 30| ≤ max (30 * cfg.gapRelTol) cfg.gapAbsTol ∨
  |g - 365| ≤ max (365 * cfg.gapRelTol) cfg.gapAbsTol

instance (cfg : Config) (g : ℚ) : Decidable (nearCanonical cfg g) := by
  unfold nearCanonical; infer_instance

/-- Modelled from the spec: qualification for rule 1, Subscription —
at least two transactions, canonical cadence, low relative gap variance and
essentially constant amount (variances compared in squared form). -/
def subscriptionQual (cfg : Config) (ev : Evidence) : Prop :=
  2 ≤ ev.txn_count ∧ nearCanonical cfg ev.gap_mean_days ∧
  ev.gap_var_days2 < (cfg.gapRelVarMax * ev.gap_mean_days) ^ 2 ∧
  ev.amount_var < (cfg.amtRelVarMax * ev.avg_amount) ^ 2

instance (cfg : Config) (ev : Evidence) : Decidable (subscriptionQual cfg ev) := by
  unfold subscriptionQual; infer_instance

/-- Modelled from the spec: qualification for rule 2, Price creep — the
periodicity qualification of rule 1 but the last amount exceeds the first
by more than the threshold percentage. -/
def priceCreepQual (cfg : Config) (ev : Evidence) : Prop :=
  2 ≤ ev.txn_count ∧ nearCanonical cfg ev.gap_mean_days ∧
  ev.gap_var_days2 < (cfg.gapRelVarMax * ev.gap_mean_days) ^ 2 ∧
  ev.first_amount * (1 + cfg.creepMinRise) < ev.last_amount

instance (cfg : Config) (ev : Evidence) : Decidable (priceCreepQual cfg ev) := by
  unfold priceCreepQual; infer_instance

/-- Monthly-normalized transaction frequency: the count scaled to a 30-day
window using the pattern's observed span. -/
def freq30 (ev : Evidence) : ℚ :=
  (ev.txn_count : ℚ) * 30 / ev.span_days

/-- Modelled from the spec: qualification for rule 3, Small recurring leak
— a stable distribution (at least three transactions, as frequency-based
categories are barred at `txn_count == 2`), sub-small-ticket average amount
and monthly-normalized frequency above the high-frequency threshold. -/
def smallRecurringQual (cfg : Config) (ev : Evidence) : Prop :=
  3 ≤ ev.txn_count ∧ ev.avg_amount ≤ cfg.smallTicketMax ∧
  cfg.highFreqPer30 < freq30 ev

instance (cfg : Config) (ev : Evidence) : Decidable (smallRecurringQual cfg ev) := by
  unfold smallRecurringQual; infer_instance

/-- Modelled from the spec: qualification for rule 4, Irregular habitual
spending — at least three transactions, moderate-to-high frequency,
irregular gaps (gap stddev at least the relative cutoff times the mean,
compared in squared form) and materially large total spend. -/
def irregularQual (cfg : Config) (ev : Evidence) : Prop :=
  3 ≤ ev.txn_count ∧ cfg.moderateFreqPer30 < freq30 ev ∧
  (cfg.irregularRelVarMin * ev.gap_mean_days) ^ 2 ≤ ev.gap_var_days2 ∧
  cfg.materiality ≤ ev.total_amount

instance (cfg : Config) (ev : Evidence) : Decidable (irregularQual cfg ev) := by
  unfold irregularQual; infer_instance

/-- Modelled from the spec: `classify` (spec section 4.2) — the four rules
evaluated in priority order, first qualifying category wins; probabilities
grow with `txn_count` and saturate below 1; savings are the spec's
annualization formulas (day-based `365 / gap_mean_days` projection), with
the price-creep delta floored at zero; `reasoning` and `actionable_step`
are left empty (they belong to the Reasoning Adapter, `classifyFull`). -/
def classifyCfg (cfg : Config) (p : Pattern) : Option Leak :=
  let ev := p.evidence
  if subscriptionQual cfg ev then
    some { pattern_key := p.key
           leak_category := .subscription
           leak_probability := min (99/100) (1/2 + (ev.txn_count : ℚ) / 20)
           estimated_annual_saving := ev.avg_amount * (365 / ev.gap_mean_days)
           reasoning := ""
           actionable_step := "" }
  else if priceCreepQual cfg ev then
    some { pattern_key := p.key
           leak_category := .price_creep
           leak_probability := min (9/10) (2/5 + (ev.txn_count : ℚ) / 20)
           estimated_annual_saving :=
             max 0 ((ev.last_amount - ev.first_amount) * (365 / ev.gap_mean_days))
           reasoning := ""
           actionable_step := "" }
  else if smallRecurringQual cfg ev then
    some { pattern_key := p.key
           leak_category := .small_recurring
           leak_probability := min (4/5) (3/10 + (ev.txn_count : ℚ) / 40)
           estimated_annual_saving :=
             ev.avg_amount * ((ev.txn_count : ℚ) * 365 / ev.span_days)
           reasoning := ""
           actionable_step := "" }
  else if irregularQual cfg ev then
    some { pattern_key := p.key
           leak_category := .irregular_habitual
           leak_probability := min (3/5) (1/5 + (ev.txn_count : ℚ) / 50)
           estimated_annual_saving :=
             cfg.conservativeFactor * (ev.total_amount * (365 / ev.span_days))
           reasoning := ""
           actionable_step := "" }
  else none

/-- The classifier at the default configuration. -/
def classify (p : Pattern) : Option Leak :=
  classifyCfg defaultConfig p

/-- Modelled from the spec: the optional Reasoning Adapter collaborator
(spec section 6) — takes the evidence and the numeric classification and
returns prose, or fails (`none`). -/
def Reasoner : Type :=
  Evidence → LeakCategory → ℚ → Option (String × String)

/-- Modelled from the spec: classification with an optional Reasoning
Adapter.  The numeric output of `classifyCfg` is kept unchanged; when the
adapter is absent or returns no prose, `reasoning` and `actionable_step`
default to empty strings; an adapter failure never drops the leak. -/
def classifyFull (adapter : Option Reasoner) (cfg : Config) (p : Pattern) :
    Option Leak :=
  match classifyCfg cfg p with
  | none => none
  | some l =>
    let prose : String × String :=
      match adapter with
      | none => ("", "")
      | some r => (r p.evidence l.leak_category l.leak_probability).getD ("", "")
    some { l with reasoning := prose.1, actionable_step := prose.2 }

/-- The numeric fields of a leak, exactly those the spec requires to be
reasoner-independent. -/
def leakNumeric (l : Leak) : LeakCategory × ℚ × ℚ :=
  (l.leak_category, l.leak_probability, l.estimated_annual_saving)

/-! ### The leak report builder -/

/-- Modelled from the spec: the report sort order (spec section 4.3) —
descending by estimated annual saving, ties by descending probability, then
by pattern key for determinism. -/
def leakLe (a b : Leak) : Prop :=
  b.estimated_annual_saving < a.estimated_annual_saving ∨
  (a.estimated_annual_saving = b.estimated_annual_saving ∧
    (b.leak_probability < a.leak_probability ∨
      (a.leak_probability = b.leak_probability ∧ a.pattern_key ≤ b.pattern_key)))

instance : DecidableRel leakLe := fun a b =>
  inferInstanceAs (Decidable (_ < _ ∨ (_ ∧ (_ < _ ∨ (_ ∧ a.pattern_key ≤ b.pattern_key)))))

instance : IsTotal Leak leakLe :=
  ⟨fun a b => by
    rcases lt_trichotomy a.estimated_annual_saving b.estimated_annual_saving with h | h | h
    · exact Or.inr (Or.inl h)
    · rcases lt_trichotomy a.leak_probability b.leak_probability with h' | h' | h'
      · exact Or.inr (Or.inr ⟨h.symm, Or.inl h'⟩)
      · rcases le_total a.pattern_key b.pattern_key with h'' | h''
        · exact Or.inl (Or.inr ⟨h, Or.inr ⟨h', h''⟩⟩)
        · exact Or.inr (Or.inr ⟨h.symm, Or.inr ⟨h'.symm, h''⟩⟩)
      · exact Or.inl (Or.inr ⟨h, Or.inl h'⟩)
    · exact Or.inl (Or.inl h)⟩

instance : IsTrans Leak leakLe :=
  ⟨fun a b c hab hbc => by
    rcases hab with h1 | ⟨e1, h1⟩ <;> rcases hbc with h2 | ⟨e2, h2⟩
    · exact Or.inl (h2.trans h1)
    · exact Or.inl (e2 ▸ h1)
    · exact Or.inl (e1.symm ▸ h2)
    · refine Or.inr ⟨e1.trans e2, ?_⟩
      rcases h1 with h1 | ⟨f1, h1⟩ <;> rcases h2 with h2 | ⟨f2, h2⟩
      · exact Or.inl (h2.trans h1)
      · exact Or.inl (f2 ▸ h1)
      · exact Or.inl (f1.symm ▸ h2)
      · exact Or.inr ⟨f1.trans f2, h1.trans h2⟩⟩

/-- Modelled from the spec: the final report value (spec section 4.3). -/
structure Report where
  leaks : List Leak
  total_estimated_annual_saving : ℚ
  confidence_level : String
deriving DecidableEq

/-- Modelled from the spec: `build_report` (spec section 4.3) — sort the
leaks by the report order, total the savings of the included leaks exactly
(no rounding), and derive the coarse confidence level from the mean
probability of the leak set passed in.  No further filtering happens
here. -/
def build_report (leaks : List Leak) : Report :=
  let sorted := List.insertionSort leakLe leaks
  let meanProb := (leaks.map (fun l => l.leak_probability)).sum / (leaks.length : ℚ)
  { leaks := sorted
    total_estimated_annual_saving :=
      (sorted.map (fun l => l.estimated_annual_saving)).sum
    confidence_level :=
      if 4/5 ≤ meanProb then "high" else if 1/2 ≤ meanProb then "medium" else "low" }

/-- Modelled from the spec: the complete engine run (spec section 2's data
flow) — aggregate, classify each pattern, build the report. -/
def runEngine (txns : List Transaction) (asOf : ℤ) : Report :=
  build_report ((aggregate txns asOf).filterMap classify)

/-! ### Concrete instances used to exercise the theorems -/

/-- Evidence of a pattern seen exactly once — below the minimum-signal
threshold. -/
def evSingle : Evidence :=
  { txn_count := 1, total_amount := 200, avg_amount := 200, gap_mean_days := 0
    gap_var_days2 := 0, gap_min_days := 0, gap_max_days := 0, recency_days := 10
    span_days := 0, level_3_confidence := 1, amount_var := 0
    first_amount := 200, last_amount := 200 }

/-- A single-transaction pattern. -/
def patSingle : Pattern := { key := "gym", evidence := evSingle }

/-- Evidence of the spec's Scenario 1: twelve monthly charges of 99. -/
def evNetflix : Evidence :=
  { txn_count := 12, total_amount := 1188, avg_amount := 99, gap_mean_days := 30
    gap_var_days2 := 0, gap_min_days := 30, gap_max_days := 30, recency_days := 5
    span_days := 330, level_3_confidence := 1, amount_var := 0
    first_amount := 99, last_amount := 99 }

/-- The Scenario 1 pattern. -/
def patNetflix : Pattern := { key := "netflix", evidence := evNetflix }

/-- The leak the classifier emits for the Scenario 1 pattern. -/
def leakNetflix : Leak :=
  { pattern_key := "netflix", leak_category := .subscription
    leak_probability := 99/100, estimated_annual_saving := 2409/2
    reasoning := "", actionable_step := "" }

/-- A concrete classified leak. -/
def leakAlpha : Leak :=
  { pattern_key := "alpha", leak_category := .subscription
    leak_probability := 1, estimated_annual_saving := 20
    reasoning := "", actionable_step := "" }

/-- A second concrete classified leak with a smaller saving. -/
def leakBeta : Leak :=
  { pattern_key := "beta", leak_category := .small_recurring
    leak_probability := 1, estimated_annual_saving := 10
    reasoning := "", actionable_step := "" }

/-- A concrete transaction. -/
def txnCoffee1 : Transaction :=
  { id := 1, date := 100, amount := -4, merchant_hint := "coffee-shop"
    level_1_tag := "food", level_2_tag := "cafe", level_3_tag := "coffee"
    level_3_confidence := 9/10, narration := "COFFEE SHOP POS 1" }

/-- A later transaction of the same merchant. -/
def txnCoffee2 : Transaction :=
  { id := 2, date := 103, amount := -5, merchant_hint := "coffee-shop"
    level_1_tag := "food", level_2_tag := "cafe", level_3_tag := "coffee"
    level_3_confidence := 9/10, narration := "COFFEE SHOP POS 2" }

/-! ### Helper lemmas -/

/-- Two sorted lists holding the same multiset are equal whenever the order
determines a key that is distinct across the list: the generic fact behind
the determinism of both the transaction sort and the report sort. -/
theorem keyedSortedEq {α β : Type} (key : α → β) (le : α → α → Prop)
    (hk : ∀ a b, le a b → le b a → key a = key b) :
    ∀ {l₁ l₂ : List α}, l₁.Perm l₂ → l₁.Sorted le → l₂.Sorted le →
      l₁.Pairwise (fun a b => key a ≠ key b) → l₁ = l₂ := by
  intro l₁
  induction l₁ with
  | nil => intro l₂ hp _ _ _; exact hp.nil_eq
  | cons a t₁ ih =>
    intro l₂ hp h₁ h₂ hd
    cases l₂ with
    | nil => exact absurd hp (by simp)
    | cons b t₂ =>
      have hab : a = b := by
        by_cases hab : a = b
        · exact hab
        · have hb : b ∈ t₁ := by
            have hmem := hp.symm.subset (List.mem_cons_self b t₂)
            rcases List.mem_cons.mp hmem with h | h
            · exact absurd h.symm hab
            · exact h
          have ha : a ∈ t₂ := by
            have hmem := hp.subset (List.mem_cons_self a t₁)
            rcases List.mem_cons.mp hmem with h | h
            · exact absurd h hab
            · exact h
          have lab : le a b := (List.sorted_cons.mp h₁).1 b hb
          have lba : le b a := (List.sorted_cons.mp h₂).1 a ha
          exact absurd (hk a b lab lba) ((List.pairwise_cons.mp hd).1 b hb)
      subst hab
      have ht : t₁.Perm t₂ := hp.cons_inv
      rw [ih ht (List.sorted_cons.mp h₁).2 (List.sorted_cons.mp h₂).2
        (List.pairwise_cons.mp hd).2]

/-- Both directions of the transaction order pin down date and id. -/
theorem txLe_antisymm_key (a b : Transaction) (hab : txLe a b) (hba : txLe b a) :
    a.date = b.date ∧ a.id = b.id := by
  rcases hab with h1 | ⟨e1, h1⟩ <;> rcases hba with h2 | ⟨e2, h2⟩
  · exact absurd h2 (lt_asymm h1)
  · exact absurd h1 (by rw [e2]; exact lt_irrefl _)
  · exact absurd h2 (by rw [e1]; exact lt_irrefl _)
  · exact ⟨e1, Nat.le_antisymm h1 h2⟩

/-- Both directions of the report order pin down the pattern key. -/
theorem leakLe_antisymm_key (a b : Leak) (hab : leakLe a b) (hba : leakLe b a) :
    a.pattern_key = b.pattern_key := by
  rcases hab with h1 | ⟨e1, h1⟩ <;> rcases hba with h2 | ⟨e2, h2⟩
  · exact absurd h2 (lt_asymm h1)
  · exact absurd h1 (by rw [e2]; exact lt_irrefl _)
  · exact absurd h2 (by rw [e1]; exact lt_irrefl _)
  · rcases h1 with h1 | ⟨f1, h1⟩ <;> rcases h2 with h2 | ⟨f2, h2⟩
    · exact absurd h2 (lt_asymm h1)
    · exact absurd h1 (by rw [f2]; exact lt_irrefl _)
    · exact absurd h2 (by rw [f1]; exact lt_irrefl _)
    · exact le_antisymm h1 h2

/-- Every leak constructed by the classifier has empty prose fields. -/
theorem classifyCfg_prose_empty (cfg : Config) (p : Pattern) (l : Leak)
    (h : classifyCfg cfg p = some l) :
    l.reasoning = "" ∧ l.actionable_step = "" := by
  simp only [classifyCfg] at h
  split_ifs at h <;>
    (obtain rfl := Option.some.inj h; exact ⟨rfl, rfl⟩)

/-! ### The claims -/

/-- C1: for every configuration and every pattern whose evidence has
`txn_count < 2`, the classifier returns no Leak — the minimum-signal gate,
here derived from the transaction-count requirements of the four
classification rules. -/
theorem classify_min_signal_gate (cfg : Config) (p : Pattern)
    (h : p.evidence.txn_count < 2) : classifyCfg cfg p = none := by
  have h1 : ¬ subscriptionQual cfg p.evidence := fun hq => absurd hq.1 (by omega)
  have h2 : ¬ priceCreepQual cfg p.evidence := fun hq => absurd hq.1 (by omega)
  have h3 : ¬ smallRecurringQual cfg p.evidence := fun hq => absurd hq.1 (by omega)
  have h4 : ¬ irregularQual cfg p.evidence := fun hq => absurd hq.1 (by omega)
  simp [classifyCfg, h1, h2, h3, h4]

/-- C1 witness: a concrete single-transaction pattern is below the gate and
yields no Leak. -/
theorem classify_min_signal_gate_witness :
    patSingle.evidence.txn_count < 2 ∧ classifyCfg defaultConfig patSingle = none :=
  ⟨by decide, classify_min_signal_gate defaultConfig patSingle (by decide)⟩

/-- C4: on the empty transaction set the engine returns a Report whose leak
sequence is empty and whose total estimated annual saving is zero. -/
theorem runEngine_empty (asOf : ℤ) :
    (runEngine [] asOf).leaks = [] ∧
    (runEngine [] asOf).total_estimated_annual_saving = 0 :=
  ⟨rfl, rfl⟩

/-- C6: the report's total estimated annual saving is the exact sum of the
savings of all included leaks. -/
theorem build_report_total_exact (L : List Leak) :
    (build_report L).total_estimated_annual_saving =
      (L.map (fun l => l.estimated_annual_saving)).sum := by
  simp only [build_report]
  exact ((List.perm_insertionSort leakLe L).map _).sum_eq

/-- C10: the dashboard filter keeps exactly the leaks whose effective
category is among the selected categories, and with the initial empty
selection the filtered list is empty whatever the input. -/
theorem dashboard_filter (sel : List String) (leaks : List DashLeak)
    (l : DashLeak) :
    filteredLeaks initialSelectedCategories leaks = [] ∧
    (l ∈ filteredLeaks sel leaks ↔
      l ∈ leaks ∧ effectiveCategory l.leak_category ∈ sel) := by
  constructor
  · simp [filteredLeaks, initialSelectedCategories]
  · simp [filteredLeaks, List.mem_filter]

/-- C3: `build_report` returns the leaks sorted by the report order
(descending saving, ties by descending probability then by pattern key), as
a permutation of its input, and — the keys being pairwise distinct, as they
are for classifier output (one leak per pattern) — the output is the same
for every permutation of the same leak multiset. -/
theorem build_report_sorted_deterministic (L₁ L₂ : List Leak)
    (hp : L₁.Perm L₂)
    (hd : L₁.Pairwise fun a b => a.pattern_key ≠ b.pattern_key) :
    (build_report L₁).leaks.Sorted leakLe ∧
    (build_report L₁).leaks.Perm L₁ ∧
    (build_report L₁).leaks = (build_report L₂).leaks := by
  refine ⟨List.sorted_insertionSort leakLe L₁,
    List.perm_insertionSort leakLe L₁, ?_⟩
  simp only [build_report]
  exact keyedSortedEq (fun l => l.pattern_key) leakLe leakLe_antisymm_key
    ((List.perm_insertionSort leakLe L₁).trans
      (hp.trans (List.perm_insertionSort leakLe L₂).symm))
    (List.sorted_insertionSort leakLe L₁)
    (List.sorted_insertionSort leakLe L₂)
    (((List.perm_insertionSort leakLe L₁).pairwise_iff
      (fun h hk => h hk.symm)).mpr hd)

/-- C3 witness: two orderings of the same two concrete leaks produce the
same sorted report. -/
theorem build_report_sorted_deterministic_witness :
    ([leakBeta, leakAlpha].Perm [leakAlpha, leakBeta]) ∧
    ([leakBeta, leakAlpha].Pairwise fun a b => a.pattern_key ≠ b.pattern_key) ∧
    ((build_report [leakBeta, leakAlpha]).leaks.Sorted leakLe ∧
      (build_report [leakBeta, leakAlpha]).leaks.Perm [leakBeta, leakAlpha] ∧
      (build_report [leakBeta, leakAlpha]).leaks =
        (build_report [leakAlpha, leakBeta]).leaks) :=
  ⟨List.Perm.swap leakAlpha leakBeta [],
   by simp [leakAlpha, leakBeta],
   build_report_sorted_deterministic [leakBeta, leakAlpha] [leakAlpha, leakBeta]
     (List.Perm.swap leakAlpha leakBeta [])
     (by simp [leakAlpha, leakBeta])⟩

/-- The key of every leak the classifier emits is the key of its
pattern. -/
theorem classifyCfg_key (cfg : Config) (p : Pattern) (l : Leak)
    (h : classifyCfg cfg p = some l) : l.pattern_key = p.key := by
  simp only [classifyCfg] at h
  split_ifs at h <;> (obtain rfl := Option.some.inj h; rfl)

/-- The patterns the aggregator produces carry pairwise-distinct keys (one
pattern per merchant), hence so do the leaks the engine classifies from
them: the distinct-key hypothesis under which the report order is
permutation-invariant always holds for engine output. -/
theorem engine_leak_keys_distinct (txns : List Transaction) (asOf : ℤ) :
    ((aggregate txns asOf).filterMap classify).Pairwise
      (fun a b => a.pattern_key ≠ b.pattern_key) := by
  have hpat : (aggregate txns asOf).Pairwise (fun p q => p.key ≠ q.key) := by
    simp only [aggregate]
    refine List.Pairwise.map _ ?_ (List.nodup_dedup _)
    intro a b hne
    simpa using hne
  refine List.Pairwise.filterMap classify ?_ hpat
  intro p q hne l hl l' hl'
  rw [classifyCfg_key defaultConfig p l (Option.mem_def.mp hl),
    classifyCfg_key defaultConfig q l' (Option.mem_def.mp hl')]
  exact hne

/-- C5: aggregation is a deterministic function of the transaction multiset
and the as-of date — under the input contract that transaction ids are
unique, any reordering of the input yields identical Pattern evidence —
and the canonical order it uses sorts by date ascending with ties broken by
transaction id. -/
theorem aggregate_deterministic (txns txns' : List Transaction) (asOf : ℤ)
    (hperm : txns'.Perm txns)
    (hids : txns.Pairwise fun a b => a.id ≠ b.id) :
    aggregate txns' asOf = aggregate txns asOf ∧
    (sortTxns txns).Sorted txLe ∧ (sortTxns txns).Perm txns := by
  have hkey : txns.Pairwise fun a b => (a.date, a.id) ≠ (b.date, b.id) :=
    hids.imp fun h hk => h (congrArg Prod.snd hk)
  have hs : sortTxns txns' = sortTxns txns := by
    apply keyedSortedEq (fun t => (t.date, t.id)) txLe
      (fun a b hab hba => by
        obtain ⟨h1, h2⟩ := txLe_antisymm_key a b hab hba
        simp [h1, h2])
    · exact (List.perm_insertionSort txLe txns').trans
        (hperm.trans (List.perm_insertionSort txLe txns).symm)
    · exact List.sorted_insertionSort txLe txns'
    · exact List.sorted_insertionSort txLe txns
    · exact ((List.perm_insertionSort txLe txns').pairwise_iff
        (fun h hk => h hk.symm)).mpr
        ((hperm.pairwise_iff (fun h hk => h hk.symm)).mpr hkey)
  refine ⟨?_, List.sorted_insertionSort txLe txns,
    List.perm_insertionSort txLe txns⟩
  simp only [aggregate]
  rw [hs]

/-- C5 witness: the two orderings of two concrete transactions with
distinct ids aggregate to the same patterns. -/
theorem aggregate_deterministic_witness :
    ([txnCoffee2, txnCoffee1].Perm [txnCoffee1, txnCoffee2]) ∧
    ([txnCoffee1, txnCoffee2].Pairwise fun a b => a.id ≠ b.id) ∧
    aggregate [txnCoffee2, txnCoffee1] 200 = aggregate [txnCoffee1, txnCoffee2] 200 :=
  ⟨List.Perm.swap txnCoffee1 txnCoffee2 [],
   by simp [txnCoffee1, txnCoffee2],
   (aggregate_deterministic [txnCoffee1, txnCoffee2] [txnCoffee2, txnCoffee1] 200
     (List.Perm.swap txnCoffee1 txnCoffee2 [])
     (by simp [txnCoffee1, txnCoffee2])).1⟩

/-- At the default tolerances a canonical gap mean is strictly positive. -/
theorem nearCanonical_default_pos {g : ℚ}
    (h : nearCanonical defaultConfig g) : 0 < g := by
  simp only [nearCanonical, defaultConfig] at h
  rcases h with h | h | h
  · have h' := (abs_le.mp h).1
    have hm : max ((7:ℚ) * (15/100)) 3 < 7 := max_lt (by norm_num) (by norm_num)
    linarith
  · have h' := (abs_le.mp h).1
    have hm : max ((30:ℚ) * (15/100)) 3 < 30 := max_lt (by norm_num) (by norm_num)
    linarith
  · have h' := (abs_le.mp h).1
    have hm : max ((365:ℚ) * (15/100)) 3 < 365 := max_lt (by norm_num) (by norm_num)
    linarith

/-- A positive monthly-normalized frequency forces a positive span. -/
theorem span_pos_of_freq {n : ℕ} {span : ℚ} {b : ℚ} (hb : 0 ≤ b)
    (h : b < (n : ℚ) * 30 / span) : 0 < span := by
  by_contra hs
  push_neg at hs
  have hnum : (0:ℚ) ≤ (n : ℚ) * 30 := by positivity
  have : (n : ℚ) * 30 / span ≤ 0 := div_nonpos_iff.mpr (Or.inl ⟨hnum, hs⟩)
  linarith

/-- C2: every leak the classifier emits for a pattern whose average
magnitude is non-negative (as aggregator evidence always is) carries a
probability in the closed interval `[0, 1]` and a non-negative estimated
annual saving, whichever of the four categories was assigned. -/
theorem classify_bounds (p : Pattern) (l : Leak)
    (hcl : classify p = some l) (hAvg : 0 ≤ p.evidence.avg_amount) :
    0 ≤ l.leak_probability ∧ l.leak_probability ≤ 1 ∧
    0 ≤ l.estimated_annual_saving := by
  simp only [classify, classifyCfg] at hcl
  split_ifs at hcl with h1 h2 h3 h4
  · obtain rfl := Option.some.inj hcl
    obtain ⟨hc, hnear, hgv, hav⟩ := h1
    have hg : 0 < p.evidence.gap_mean_days := nearCanonical_default_pos hnear
    exact ⟨le_min (by norm_num) (by positivity),
      (min_le_left _ _).trans (by norm_num),
      mul_nonneg hAvg (div_nonneg (by norm_num) hg.le)⟩
  · obtain rfl := Option.some.inj hcl
    exact ⟨le_min (by norm_num) (by positivity),
      (min_le_left _ _).trans (by norm_num),
      le_max_left 0 _⟩
  · obtain rfl := Option.some.inj hcl
    obtain ⟨hc, hsm, hfreq⟩ := h3
    simp only [defaultConfig, freq30] at hfreq
    have hspan := span_pos_of_freq (by norm_num : (0:ℚ) ≤ 8) hfreq
    refine ⟨le_min (by norm_num) (by positivity),
      (min_le_left _ _).trans (by norm_num), ?_⟩
    exact mul_nonneg hAvg (div_nonneg (by positivity) hspan.le)
  · obtain rfl := Option.some.inj hcl
    obtain ⟨hc, hfreq, hvar, hmat⟩ := h4
    simp only [defaultConfig, freq30] at hfreq hmat
    have hspan := span_pos_of_freq (by norm_num : (0:ℚ) ≤ 1) hfreq
    refine ⟨le_min (by norm_num) (by positivity),
      (min_le_left _ _).trans (by norm_num), ?_⟩
    have htot : (0:ℚ) ≤ p.evidence.total_amount := le_trans (by norm_num) hmat
    exact mul_nonneg (by norm_num [defaultConfig])
      (mul_nonneg htot (div_nonneg (by norm_num) hspan.le))

/-- The classifier emits the Scenario 1 subscription leak. -/
theorem classify_patNetflix : classify patNetflix = some leakNetflix := by
  have h1 : subscriptionQual defaultConfig patNetflix.evidence := by
    refine ⟨?_, Or.inr (Or.inl ?_), ?_, ?_⟩
    · norm_num [patNetflix, evNetflix]
    · simp only [patNetflix, evNetflix, defaultConfig]
      norm_num
    · norm_num [patNetflix, evNetflix, defaultConfig]
    · norm_num [patNetflix, evNetflix, defaultConfig]
  simp only [classify, classifyCfg]
  rw [if_pos h1]
  refine congrArg some ?_
  simp only [leakNetflix, patNetflix, evNetflix, Leak.mk.injEq]
  norm_num [min_eq_left]

/-- C2 witness: the Scenario 1 leak is emitted and its probability and
saving are within bounds. -/
theorem classify_bounds_witness :
    classify patNetflix = some leakNetflix ∧
    0 ≤ patNetflix.evidence.avg_amount ∧
    (0 ≤ leakNetflix.leak_probability ∧ leakNetflix.leak_probability ≤ 1 ∧
      0 ≤ leakNetflix.estimated_annual_saving) :=
  ⟨classify_patNetflix, by norm_num [patNetflix, evNetflix],
    classify_bounds patNetflix leakNetflix classify_patNetflix
      (by norm_num [patNetflix, evNetflix])⟩

/-- C7: the numeric classification output is independent of the Reasoning
Adapter — with any adapter the same leak (same category, probability and
saving) is emitted or not emitted, when the adapter is absent the prose
fields default to empty strings, and an adapter that always fails yields
exactly the adapter-free result, so no leak is ever dropped and no error
surfaced because prose generation failed. -/
theorem classifyFull_reasoner_independent (adapter : Option Reasoner)
    (p : Pattern) :
    (classifyFull adapter defaultConfig p).map leakNumeric
        = (classify p).map leakNumeric ∧
    (classifyFull adapter defaultConfig p).isSome = (classify p).isSome ∧
    (∀ l, classifyFull none defaultConfig p = some l →
      l.reasoning = "" ∧ l.actionable_step = "") ∧
    ∀ r : Reasoner, (∀ ev c q, r ev c q = none) →
      classifyFull (some r) defaultConfig p = classify p := by
  cases h : classifyCfg defaultConfig p with
  | none => simp [classifyFull, classify, h]
  | some l =>
    obtain ⟨hr, ha⟩ := classifyCfg_prose_empty defaultConfig p l h
    refine ⟨?_, ?_, ?_, ?_⟩
    · cases adapter <;> simp [classifyFull, classify, h, leakNumeric]
    · cases adapter <;> simp [classifyFull, classify, h]
    · intro l' hl'
      simp only [classifyFull, h] at hl'
      obtain rfl := Option.some.inj hl'
      exact ⟨rfl, rfl⟩
    · intro r hfail
      simp only [classifyFull, classify, h, hfail]
      cases l with
      | mk pk cat prob sav rs st =>
        simp only at hr ha
        simp [hr, ha]

/-- C8 counterexample: `encryptPassword` can reject — when encryption
fails and the password contains a character above U+00FF (here `'π'`), the
`btoa` fallback itself throws, so the promise does not resolve. -/
theorem encryptPassword_non_latin1_rejects :
    encryptPassword none "π" = none := by rfl

/-- C8 as amended: for a password all of whose characters are Latin-1
(code points at most 255), a failed encryption attempt resolves with the
base64 encoding of the plain password instead of propagating the error;
and a successful attempt resolves with its ciphertext. -/
theorem encryptPassword_fallback_latin1 (pw : String)
    (h : ∀ c ∈ pw.data, c.toNat ≤ 255) :
    encryptPassword none pw = some (b64encode (pw.data.map Char.toNat)) ∧
    ∀ cipher, encryptPassword (some cipher) pw = some cipher := by
  have hb : pw.data.all (fun c => c.toNat ≤ 255) = true := by
    simp only [List.all_eq_true, decide_eq_true_eq]
    exact h
  exact ⟨by simp [encryptPassword, btoa, hb], fun cipher => rfl⟩

/-- C8 witness: on the all-Latin-1 password `"abc"` the fallback resolves
with its base64 encoding `"YWJj"`. -/
theorem encryptPassword_fallback_latin1_witness :
    (∀ c ∈ "abc".data, c.toNat ≤ 255) ∧
    encryptPassword none "abc" = some "YWJj" :=
  ⟨by decide,
   ((encryptPassword_fallback_latin1 "abc" (by decide)).1).trans (by rfl)⟩

/-- Single decimal digits print as one character. -/
theorem toString_length_one (m : ℕ) (h : m < 10) : (toString m).length = 1 := by
  interval_cases m <;> rfl

/-- Rendering with zero decimals is the sign followed by the magnitude
rounded to the nearest integer, ties up. -/
theorem toFixedQ_zero_decimals (x : ℚ) :
    toFixedQ 0 x = (if x < 0 then "-" else "") ++ toString ⌊|x| + 1/2⌋₊ := by
  simp [toFixedQ]

/-- Rendering with one decimal is the sign, the integer part and the single
tenths digit of the magnitude scaled by ten and rounded, ties up. -/
theorem toFixedQ_one_decimal (x : ℚ) :
    toFixedQ 1 x = (if x < 0 then "-" else "") ++
      toString (⌊|x| * 10 + 1/2⌋₊ / 10) ++ "." ++
      toString (⌊|x| * 10 + 1/2⌋₊ % 10) := by
  have hlen : (toString (⌊|x| * (10:ℚ) ^ (1:ℕ) + 1/2⌋₊ % 10 ^ 1)).length = 1 := by
    refine toString_length_one _ ?_
    have h10 : (10:ℕ) ^ (1:ℕ) = 10 := by norm_num
    rw [h10]
    exact Nat.mod_lt _ (by norm_num)
  simp only [toFixedQ]
  rw [if_neg one_ne_zero, hlen]
  norm_num
  have hmt : ({ data := [] } : String) = "" := rfl
  rw [hmt, String.append_empty]

/-- The sign of a quotient by a positive constant is the sign of the
numerator. -/
theorem sign_div_pos (v c : ℚ) (hc : 0 < c) :
    (if v / c < 0 then "-" else "") = (if v < 0 then "-" else "") := by
  by_cases hv : v < 0
  · rw [if_pos (div_neg_of_neg_of_pos hv hc), if_pos hv]
  · rw [if_neg (fun hdc => hdc.not_le (div_nonneg (not_lt.mp hv) hc.le)), if_neg hv]

/-- C9 counterexample: `formatCurrency` does not return `"₹0"` only at
zero — the nonzero input `2/5` also renders as `"₹0"`, because the final
bucket rounds to zero decimals. -/
theorem formatCurrency_zero_output_not_only_zero :
    formatCurrency (2/5) = "₹0" ∧ (2/5 : ℚ) ≠ 0 := by
  constructor
  · have h0 : ¬ ((2:ℚ)/5 = 0) := by norm_num
    have habs : |(2:ℚ)/5| = 2/5 := abs_of_nonneg (by norm_num)
    have h1 : ¬ ((10000000:ℚ) ≤ |2/5|) := by rw [habs]; norm_num
    have h2 : ¬ ((100000:ℚ) ≤ |2/5|) := by rw [habs]; norm_num
    have h3 : ¬ ((1000:ℚ) ≤ |2/5|) := by rw [habs]; norm_num
    simp only [formatCurrency]
    rw [if_neg h0, if_neg h1, if_neg h2, if_neg h3, toFixedQ_zero_decimals,
      if_neg (by norm_num : ¬ ((2:ℚ)/5 < 0)), habs]
    have hfl : ⌊(2:ℚ)/5 + 1/2⌋₊ = 0 := by norm_num
    rw [hfl]
    rfl
  · norm_num

/-- C9 as amended: `formatCurrency` is total on the rationals; zero maps to
`"₹0"`; values of magnitude at least 10^7 (crores), at least 10^5 (lakhs)
and at least 10^3 (thousands) are rendered as the value divided by the
bucket size with exactly one decimal (round-to-nearest, ties up on the
magnitude) and suffixed `Cr`, `L` and `K` respectively; all smaller
nonzero values are rendered rounded to zero decimals — which can itself
produce `"₹0"` (or `"₹-0"`), so `"₹0"` is not exclusive to input zero. -/
theorem formatCurrency_buckets (v : ℚ) :
    (v = 0 → formatCurrency v = "₹0") ∧
    (v ≠ 0 → 10000000 ≤ |v| →
      formatCurrency v = "₹" ++ ((if v < 0 then "-" else "") ++
        toString (⌊|v / 10000000| * 10 + 1/2⌋₊ / 10) ++ "." ++
        toString (⌊|v / 10000000| * 10 + 1/2⌋₊ % 10)) ++ "Cr") ∧
    (v ≠ 0 → ¬ 10000000 ≤ |v| → 100000 ≤ |v| →
      formatCurrency v = "₹" ++ ((if v < 0 then "-" else "") ++
        toString (⌊|v / 100000| * 10 + 1/2⌋₊ / 10) ++ "." ++
        toString (⌊|v / 100000| * 10 + 1/2⌋₊ % 10)) ++ "L") ∧
    (v ≠ 0 → ¬ 10000000 ≤ |v| → ¬ 100000 ≤ |v| → 1000 ≤ |v| →
      formatCurrency v = "₹" ++ ((if v < 0 then "-" else "") ++
        toString (⌊|v / 1000| * 10 + 1/2⌋₊ / 10) ++ "." ++
        toString (⌊|v / 1000| * 10 + 1/2⌋₊ % 10)) ++ "K") ∧
    (v ≠ 0 → ¬ 1000 ≤ |v| →
      formatCurrency v = "₹" ++ ((if v < 0 then "-" else "") ++
        toString ⌊|v| + 1/2⌋₊)) := by
  refine ⟨?_, ?_, ?_, ?_, ?_⟩
  · intro h0
    simp only [formatCurrency]
    rw [if_pos h0]
  · intro h0 h1
    simp only [formatCurrency]
    rw [if_neg h0, if_pos h1, toFixedQ_one_decimal,
      sign_div_pos v 10000000 (by norm_num)]
  · intro h0 h1 h2
    simp only [formatCurrency]
    rw [if_neg h0, if_neg h1, if_pos h2, toFixedQ_one_decimal,
      sign_div_pos v 100000 (by norm_num)]
  · intro h0 h1 h2 h3
    simp only [formatCurrency]
    rw [if_neg h0, if_neg h1, if_neg h2, if_pos h3, toFixedQ_one_decimal,
      sign_div_pos v 1000 (by norm_num)]
  · intro h0 h3
    have h1 : ¬ ((10000000:ℚ) ≤ |v|) := fun hc => h3 (le_trans (by norm_num) hc)
    have h2 : ¬ ((100000:ℚ) ≤ |v|) := fun hc => h3 (le_trans (by norm_num) hc)
    simp only [formatCurrency]
    rw [if_neg h0, if_neg h1, if_neg h2, if_neg h3, toFixedQ_zero_decimals]

end LeakDetector
